import Mathlib

/-!
Verification of the escalation and enforcement engine of the multi-agent
productivity assistant backend (src/backend/main.py).

The SQLite-backed state is embedded as an explicit `DB` record; each HTTP
handler that the claims mention becomes a pure Lean function from the
request data (and, where the handler consults the external judgment
oracle, from the oracle's structured response, passed as a parameter) and
the pre-state to the post-state plus response.  Timestamps are modelled as
integers, the REAL-typed account balance as a rational number.
-/

namespace Productivity

/-! ## CONFIG constants (src/backend/main.py, CONFIG dict) -/

def sbi_initial_balance : ℚ := 10000
def penalty_strike_1 : ℚ := 50
def penalty_strike_2 : ℚ := 100
def penalty_strike_3 : ℚ := 200
def reward_single_task : String := "Dairy Milk Silk Chocolate"
def reward_half_tasks : String := "Cold Coffee + Cookies Pack"
def reward_all_tasks : String := "Premium Snack Box + Ice Cream"

/-! ## Data model (tables created by init_db) -/

structure Task where
  id : Nat
  text : String
  done : Bool
deriving DecidableEq

structure Observation where
  timestamp : Int
  window_title : String
  app_name : String
  description : String
deriving DecidableEq

structure Compaction where
  timestamp : Int
  period_start : Int
  period_end : Int
  observation_count : Nat
  summary : String
deriving DecidableEq

structure StrikeState where
  strike_count : Nat
  window_start : Int
  updated_at : Int
deriving DecidableEq

structure PendingInterjection where
  timestamp : Int
  message : String
  acknowledged : Bool
deriving DecidableEq

structure ManagerDecision where
  timestamp : Int
  is_productive : Bool
  reasoning : String
  interjection : Bool
  interjection_message : Option String
  tasks_updated : List String
deriving DecidableEq

structure SbiTransaction where
  timestamp : Int
  txn_type : String
  amount : ℚ
  balance_after : ℚ
  description : String
  strike_count : Nat
deriving DecidableEq

structure BlinkitOrder where
  timestamp : Int
  item : String
  status : String
  reason : String
  tasks_completed : Nat
  total_tasks : Nat
deriving DecidableEq

/-- The whole persistent store: the five agent tables plus the two ledger
tables (the singleton sbi_account row is represented by its balance) and
the reward table. -/
structure DB where
  tasks : List Task
  observations : List Observation
  compactions : List Compaction
  manager_decisions : List ManagerDecision
  pending_interjections : List PendingInterjection
  strikes : StrikeState
  balance : ℚ
  sbi_transactions : List SbiTransaction
  blinkit_orders : List BlinkitOrder
deriving DecidableEq

/-- Fresh database as produced by init_db (empty tables, strike row
(0, now, now), account at the initial balance). -/
def initDB (t0 : Int) : DB :=
  { tasks := []
    observations := []
    compactions := []
    manager_decisions := []
    pending_interjections := []
    strikes := { strike_count := 0, window_start := t0, updated_at := t0 }
    balance := sbi_initial_balance
    sbi_transactions := []
    blinkit_orders := [] }

/-! ## SBI penalty path (deduct_sbi_penalty, main.py lines 457-517) -/

/-- Clamping `strike = max(1, min(3, req.strike_count))` from the handler. -/
def clampStrike (reqStrike : Int) : Nat := (max 1 (min 3 reqStrike)).toNat

/-- The strike-indexed penalty lookup of deduct_sbi_penalty:
strike 1, 2 and anything else map to the three configured amounts. -/
def penaltyAmount (strike : Nat) : ℚ :=
  if strike = 1 then penalty_strike_1
  else if strike = 2 then penalty_strike_2
  else penalty_strike_3

structure PenaltyResult where
  amount_deducted : ℚ
  new_balance : ℚ
deriving DecidableEq

/-- deduct_sbi_penalty: clamp the requested strike, pick the tier amount,
clamp the balance at zero, update the account and append exactly one
PENALTY transaction carrying the post-update balance. -/
def deduct_sbi_penalty (reqStrike : Int) (reason : String) (now : Int) (db : DB) :
    DB × PenaltyResult :=
  let strike := clampStrike reqStrike
  let amount := penaltyAmount strike
  let new_balance := max 0 (db.balance - amount)
  let txn : SbiTransaction :=
    { timestamp := now, txn_type := "PENALTY", amount := amount,
      balance_after := new_balance, description := reason, strike_count := strike }
  ({ db with balance := new_balance,
             sbi_transactions := db.sbi_transactions ++ [txn] },
   { amount_deducted := amount, new_balance := new_balance })

/-! ## Blinkit reward path (_get_reward_item and place_blinkit_reward) -/

/-- The reward selector of main.py lines 546-558: guard total = 0, then
choose the tier by the completion ratio. -/
def get_reward_item (tasks_completed total_tasks : Nat) : String :=
  if total_tasks = 0 then reward_single_task
  else
    let completion_ratio : ℚ := (tasks_completed : ℚ) / (total_tasks : ℚ)
    if 1 ≤ completion_ratio then reward_all_tasks
    else if (1 : ℚ) / 2 ≤ completion_ratio then reward_half_tasks
    else reward_single_task

/-- place_blinkit_reward: select the item and append exactly one PLACED
order row. -/
def place_blinkit_reward (tasks_completed total_tasks : Nat) (reason : String)
    (now : Int) (db : DB) : DB × BlinkitOrder :=
  let item := get_reward_item tasks_completed total_tasks
  let order : BlinkitOrder :=
    { timestamp := now, item := item, status := "PLACED", reason := reason,
      tasks_completed := tasks_completed, total_tasks := total_tasks }
  ({ db with blinkit_orders := db.blinkit_orders ++ [order] }, order)

/-! ## Interjection gate -/

/-- _has_pending_interjection: COUNT of rows with acknowledged = 0 is
positive. -/
def hasPendingInterjection (db : DB) : Bool :=
  db.pending_interjections.any (fun p => !p.acknowledged)

/-- Number of unacknowledged pending_interjections rows. -/
def unackCount (db : DB) : Nat :=
  (db.pending_interjections.filter (fun p => !p.acknowledged)).length

/-- acknowledge_interjection: set acknowledged = 1 on every row where it
was 0 and report the current strike count without touching it. -/
def acknowledge_interjection (db : DB) : DB × Nat :=
  ({ db with pending_interjections :=
      db.pending_interjections.map (fun p => { p with acknowledged := true }) },
   db.strikes.strike_count)

/-! ## SQLite LIKE matching (manager task-completion side effect) -/

/-- ASCII case folding: SQLite's LIKE compares ASCII letters
case-insensitively. -/
def asciiLower (c : Char) : Char :=
  if 65 ≤ c.toNat ∧ c.toNat ≤ 90 then Char.ofNat (c.toNat + 32) else c

/-- Character comparison used by LIKE for ordinary pattern characters. -/
def charLikeEq (p c : Char) : Bool := asciiLower p == asciiLower c

/-- SQLite LIKE semantics over character lists: a percent sign matches any
run of characters (equivalently, the rest of the pattern matches some
suffix of the subject), an underscore matches exactly one character,
anything else matches a single character up to ASCII case. -/
def likeMatch : List Char → List Char → Bool
  | [], s => s.isEmpty
  | p :: ps, s =>
    if p = '%' then s.tails.any (fun s2 => likeMatch ps s2)
    else
      match s with
      | [] => false
      | c :: s2 =>
        if p = '_' then likeMatch ps s2 else charLikeEq p c && likeMatch ps s2

/-- The pattern built by the manager handler: f-string percent text percent. -/
def likePattern (t : String) : List Char := '%' :: (t.data ++ ['%'])

/-- One UPDATE tasks SET done = 1 WHERE text LIKE pattern AND done = 0
statement from the manager loop (main.py lines 1086-1090). -/
def markTasksLike (t : String) (tasks : List Task) : List Task :=
  tasks.map (fun task =>
    if !task.done && likeMatch (likePattern t) task.text.data then
      { task with done := true }
    else task)

/-- The whole manager task-completion loop: one LIKE update per
oracle-suggested task text, in order. -/
def markTasksLikeAll (ts : List String) (tasks : List Task) : List Task :=
  ts.foldl (fun acc t => markTasksLike t acc) tasks

/-! ## Exact-match task updates (completion assessment path) -/

/-- One UPDATE tasks SET done = 1 WHERE text = t AND done = 0 statement
from assess_task_completion (main.py lines 1514-1519). -/
def markTasksExact (t : String) (tasks : List Task) : List Task :=
  tasks.map (fun task =>
    if task.text == t && !task.done then { task with done := true } else task)

/-- The assessment path's update loop: one exact-match update per mapped
task text, in order. -/
def markTasksExactAll (ts : List String) (tasks : List Task) : List Task :=
  ts.foldl (fun acc t => markTasksExact t acc) tasks

/-! ## Manager Orchestrator (manager_check, main.py lines 949-1202) -/

/-- The judgment oracle's structured verdict, after the handler's
defaulting of missing fields (is_productive true, interjection false,
tasks_to_complete empty). -/
structure Verdict where
  is_productive : Bool
  reasoning : String
  interjection : Bool
  interjection_message : Option String
  tasks_to_complete : List String
deriving DecidableEq

/-- Python truthiness of the interjection_message field: present and
non-empty. -/
def messagePresent : Option String → Bool
  | none => false
  | some m => !(m == "")

/-- _get_mood (main.py lines 1281-1295). -/
def get_mood (strike_count : Nat) (is_productive : Bool) (tasks_completed : Bool) :
    String :=
  if tasks_completed || (is_productive && strike_count == 0) then "happy"
  else if 3 ≤ strike_count then "angry"
  else if strike_count == 2 then "sad"
  else "cool"

structure ManagerResponse where
  is_productive : Bool
  reasoning : String
  interjection : Bool
  interjection_message : Option String
  strike_count : Nat
  mood : String
  tasks_updated : List String
  penalty_amount : Option ℚ
  balance_before : Option ℚ
  balance_after : Option ℚ
deriving DecidableEq

/-- The early-return response of the skipped manager run. -/
def managerSkipResponse : ManagerResponse :=
  { is_productive := true
    reasoning := "Skipped: interjection already in progress"
    interjection := false
    interjection_message := none
    strike_count := 0
    mood := "cool"
    tasks_updated := []
    penalty_amount := none
    balance_before := none
    balance_after := none }

/-- Body of the manager run after the entry gate check: task-completion
side effect, interjection handling with the second gate check, penalty
call, and the unconditional decision insert of this path. -/
def manager_body (v : Verdict) (now : Int) (db : DB) : DB × ManagerResponse :=
  let tasks1 := markTasksLikeAll v.tasks_to_complete db.tasks
  let tasks_updated := v.tasks_to_complete
  let db1 : DB := { db with tasks := tasks1 }
  let wantInterject := v.interjection && messagePresent v.interjection_message
  if wantInterject && hasPendingInterjection db1 then
    -- second check fired: interjection and message are cleared before the
    -- decision row is written
    let decision : ManagerDecision :=
      { timestamp := now, is_productive := v.is_productive,
        reasoning := v.reasoning, interjection := false,
        interjection_message := none, tasks_updated := tasks_updated }
    ({ db1 with manager_decisions := db1.manager_decisions ++ [decision] },
     { is_productive := v.is_productive, reasoning := v.reasoning,
       interjection := false, interjection_message := none, strike_count := 0,
       mood := get_mood 0 v.is_productive (!tasks_updated.isEmpty),
       tasks_updated := tasks_updated, penalty_amount := none,
       balance_before := none, balance_after := none })
  else if wantInterject then
    -- escalation: bump the strike (capped at 3), open the interjection,
    -- apply the penalty
    let msg := v.interjection_message.getD ""
    let current := db1.strikes.strike_count
    let newStrike := min 3 (current + 1)
    let db2 : DB :=
      { db1 with
        strikes := { db1.strikes with strike_count := newStrike, updated_at := now }
        pending_interjections := db1.pending_interjections ++
          [{ timestamp := now, message := msg, acknowledged := false }] }
    let balance_before := db2.balance
    let pen := deduct_sbi_penalty (newStrike : Int)
      ("Strike " ++ toString newStrike ++ ": " ++ msg.take 50 ++ "...") now db2
    let db3 := pen.1
    let decision : ManagerDecision :=
      { timestamp := now, is_productive := v.is_productive,
        reasoning := v.reasoning, interjection := true,
        interjection_message := v.interjection_message,
        tasks_updated := tasks_updated }
    ({ db3 with manager_decisions := db3.manager_decisions ++ [decision] },
     { is_productive := v.is_productive, reasoning := v.reasoning,
       interjection := true, interjection_message := v.interjection_message,
       strike_count := newStrike,
       mood := get_mood newStrike v.is_productive (!tasks_updated.isEmpty),
       tasks_updated := tasks_updated,
       penalty_amount := some pen.2.amount_deducted,
       balance_before := some balance_before,
       balance_after := some pen.2.new_balance })
  else
    -- no escalation; the oracle's raw flags flow into the decision row
    let decision : ManagerDecision :=
      { timestamp := now, is_productive := v.is_productive,
        reasoning := v.reasoning, interjection := v.interjection,
        interjection_message := v.interjection_message,
        tasks_updated := tasks_updated }
    ({ db1 with manager_decisions := db1.manager_decisions ++ [decision] },
     { is_productive := v.is_productive, reasoning := v.reasoning,
       interjection := v.interjection,
       interjection_message := v.interjection_message, strike_count := 0,
       mood := get_mood 0 v.is_productive (!tasks_updated.isEmpty),
       tasks_updated := tasks_updated, penalty_amount := none,
       balance_before := none, balance_after := none })

/-- manager_check: skip entirely (no writes at all) when an interjection
is pending at entry, otherwise run the body. -/
def manager_check (v : Verdict) (now : Int) (db : DB) : DB × ManagerResponse :=
  if hasPendingInterjection db then (db, managerSkipResponse)
  else manager_body v now db

/-! ## Compaction Orchestrator (compact, main.py lines 831-942) -/

/-- compact: summarize the observations of the trailing 30 minutes (the
summary text comes from the oracle and is a parameter here); returns none
exactly when the window holds no observations (HTTP 400, nothing
written).  Otherwise one compaction row is inserted and the strike
forgiveness policy runs: count of at most 3 resets to 0 with a fresh
window_start, a larger count is kept and only window_start advances. -/
def compact (summary : String) (now : Int) (db : DB) : Option DB :=
  let cutoff := now - 1800
  let obs := db.observations.filter (fun o => decide (cutoff < o.timestamp))
  if obs.isEmpty then none
  else
    let firstTs := ((obs.head?).map Observation.timestamp).getD now
    let lastTs := ((obs.getLast?).map Observation.timestamp).getD now
    let comp : Compaction :=
      { timestamp := now, period_start := firstTs, period_end := lastTs,
        observation_count := obs.length, summary := summary }
    let db1 : DB := { db with compactions := db.compactions ++ [comp] }
    if db1.strikes.strike_count ≤ 3 then
      some { db1 with strikes := { strike_count := 0, window_start := now, updated_at := now } }
    else
      some { db1 with strikes := { db1.strikes with window_start := now, updated_at := now } }

/-! ## Completion Assessment (assess_task_completion, main.py 1427-1556) -/

structure AssessRequest where
  transcript : String
  task_list : List Task
deriving DecidableEq

/-- The completion oracle's structured response, after defaulting. -/
structure CompletionOracleResponse where
  completed_task_numbers : List Int
  is_compliant : Bool
  compliance_reason : String
deriving DecidableEq

structure AssessResponse where
  tasks_to_complete : List String
  is_compliant : Bool
  compliance_message : String
deriving DecidableEq

/-- Python's `not s.strip()`: the transcript is empty or whitespace-only. -/
def isBlank (s : String) : Bool := s.data.all Char.isWhitespace

/-- Mapping the oracle's 1-based task numbers back to literal task text:
keep only in-range indices referring to tasks not yet done. -/
def tasks_to_complete_of (task_list : List Task) (numbers : List Int) :
    List String :=
  numbers.filterMap (fun num =>
    let idx := num - 1
    if 0 ≤ idx then
      match task_list[idx.toNat]? with
      | some task => if task.done then none else some task.text
      | none => none
    else none)

/-- assess_task_completion: refuse blank transcripts before consulting the
oracle; otherwise map indices to texts, run the exact-match updates, and
on any completion issue exactly one reward order at the cumulative
completed/total ratio. -/
def assess_task_completion (req : AssessRequest)
    (oracle : CompletionOracleResponse) (now : Int) (db : DB) :
    DB × AssessResponse :=
  if isBlank req.transcript then
    (db, { tasks_to_complete := [], is_compliant := false,
           compliance_message := "No response detected" })
  else
    let ttc := tasks_to_complete_of req.task_list oracle.completed_task_numbers
    let db1 : DB := { db with tasks := markTasksExactAll ttc db.tasks }
    if ttc.isEmpty then
      let pending_count := (req.task_list.filter (fun t => !t.done)).length
      let msg :=
        if oracle.is_compliant = false ∧ 0 < pending_count then
          (if oracle.compliance_reason = "" then "No progress reported on pending tasks"
           else oracle.compliance_reason)
        else
          (if oracle.compliance_reason = "" then "Response acknowledged"
           else oracle.compliance_reason)
      (db1, { tasks_to_complete := ttc, is_compliant := oracle.is_compliant,
              compliance_message := msg })
    else
      let total_tasks := req.task_list.length
      let completed_now := ttc.length
      let already_done := (req.task_list.filter (fun t => t.done)).length
      let total_completed := already_done + completed_now
      let rw := place_blinkit_reward total_completed total_tasks
        ("Completed " ++ toString completed_now ++ " task(s)") now db1
      (rw.1,
       { tasks_to_complete := ttc, is_compliant := true,
         compliance_message :=
           "Completed " ++ toString completed_now ++ " task(s) Reward ordered: "
             ++ rw.2.item })

/-! ## Full reset and sequential operation model -/

/-- reset_all_data: every table cleared, strike row back to (0, now, now),
account back to the initial balance. -/
def reset_all (now : Int) (_db : DB) : DB :=
  { tasks := []
    observations := []
    compactions := []
    manager_decisions := []
    pending_interjections := []
    strikes := { strike_count := 0, window_start := now, updated_at := now }
    balance := sbi_initial_balance
    sbi_transactions := []
    blinkit_orders := [] }

/-- One sequentially executed API call against the store. -/
inductive Op where
  | manager (v : Verdict) (now : Int)
  | compaction (summary : String) (now : Int)
  | acknowledge
  | resetAll (now : Int)
  | observe (o : Observation)
  | assess (req : AssessRequest) (oracle : CompletionOracleResponse) (now : Int)
  | penalty (reqStrike : Int) (reason : String) (now : Int)
  | reward (tasks_completed total_tasks : Nat) (reason : String) (now : Int)
deriving DecidableEq

/-- State transition of one call.  A compaction that finds no observation
raises and leaves the store untouched. -/
def applyOp (db : DB) : Op → DB
  | .manager v now => (manager_check v now db).1
  | .compaction summary now => (compact summary now db).getD db
  | .acknowledge => (acknowledge_interjection db).1
  | .resetAll now => reset_all now db
  | .observe o => { db with observations := db.observations ++ [o] }
  | .assess req oracle now => (assess_task_completion req oracle now db).1
  | .penalty r reason now => (deduct_sbi_penalty r reason now db).1
  | .reward c t reason now => (place_blinkit_reward c t reason now db).1

/-- Run a sequence of calls left to right. -/
def runOps (ops : List Op) (db : DB) : DB := ops.foldl applyOp db

/-! ## Shared helper lemmas -/

/-- Acknowledging twice is the same map as acknowledging once. -/
lemma map_ack_of_all_acked (P : List PendingInterjection)
    (h : ∀ p ∈ P, p.acknowledged = true) :
    P.map (fun p => { p with acknowledged := true }) = P := by
  induction P with
  | nil => rfl
  | cons q Q ih =>
    have hq : ({ q with acknowledged := true } : PendingInterjection) = q := by
      cases q
      simp_all
    simp only [List.map_cons, hq]
    rw [ih (fun p hp => h p (by simp [hp]))]

/-- Every character agrees with itself under LIKE comparison. -/
lemma charLikeEq_refl (c : Char) : charLikeEq c c = true := by
  simp [charLikeEq]

/-- The pattern consisting of a single percent sign matches everything. -/
lemma likeMatch_pct (s : List Char) : likeMatch ['%'] s = true := by
  simp only [likeMatch]
  rw [if_true, List.any_eq_true]
  exact ⟨[], (List.mem_tails _ _).mpr List.nil_suffix, rfl⟩

/-- A leading percent sign may match the empty run. -/
lemma likeMatch_pct_intro (ps s : List Char) (h : likeMatch ps s = true) :
    likeMatch ('%' :: ps) s = true := by
  simp only [likeMatch]
  rw [if_true, List.any_eq_true]
  exact ⟨s, (List.mem_tails _ _).mpr (List.suffix_refl s), h⟩

/-- A leading percent sign absorbs an arbitrary prefix of the subject. -/
lemma likeMatch_pct_drop (ps s u : List Char)
    (h : likeMatch ('%' :: ps) s = true) :
    likeMatch ('%' :: ps) (u ++ s) = true := by
  simp only [likeMatch] at h ⊢
  rw [if_true, List.any_eq_true] at h ⊢
  rcases h with ⟨s2, hmem, hs2⟩
  refine ⟨s2, ?_, hs2⟩
  rw [List.mem_tails] at hmem ⊢
  exact hmem.trans (List.suffix_append u s)

/-- Matching a literal block consumes it character by character. -/
lemma likeMatch_append_literal (t ps s : List Char)
    (h : likeMatch ps s = true) :
    likeMatch (t ++ ps) (t ++ s) = true := by
  induction t with
  | nil => simpa using h
  | cons c t ih =>
    rw [List.cons_append, List.cons_append]
    by_cases hpct : c = '%'
    · subst hpct
      simp only [likeMatch]
      rw [if_true, List.any_eq_true]
      exact ⟨t ++ s, (List.mem_tails _ _).mpr ⟨['%'], rfl⟩, ih⟩
    · by_cases hund : c = '_'
      · subst hund
        simp only [likeMatch]
        rw [if_neg (show ('_' : Char) ≠ '%' by decide)]
        show (if ('_' : Char) = '_' then likeMatch (t ++ ps) (t ++ s)
              else charLikeEq '_' '_' && likeMatch (t ++ ps) (t ++ s)) = true
        rw [if_pos rfl]
        exact ih
      · simp only [likeMatch]
        rw [if_neg hpct]
        show (if c = '_' then likeMatch (t ++ ps) (t ++ s)
              else charLikeEq c c && likeMatch (t ++ ps) (t ++ s)) = true
        rw [if_neg hund, charLikeEq_refl, Bool.true_and]
        exact ih

/-- Substring containment implies a LIKE match of the percent-wrapped
pattern (the converse does not hold: LIKE is also case-insensitive). -/
lemma likeMatch_of_substring (t pre post : List Char) :
    likeMatch ('%' :: (t ++ ['%'])) (pre ++ (t ++ post)) = true :=
  likeMatch_pct_drop _ _ pre
    (likeMatch_pct_intro _ _
      (likeMatch_append_literal t ['%'] post (likeMatch_pct post)))

/-- The empty suggestion produces the pattern of two percent signs, which
matches everything. -/
lemma likeMatch_pct_pct (s : List Char) : likeMatch ['%', '%'] s = true :=
  likeMatch_pct_intro _ _ (likeMatch_pct s)


/-- A store holding exactly one unacknowledged interjection. -/
def dbPending : DB :=
  { initDB 0 with
    pending_interjections := [{ timestamp := 0, message := "m", acknowledged := false }] }

/-- A verdict that requests nothing. -/
def vTrivial : Verdict :=
  { is_productive := true, reasoning := "ok", interjection := false,
    interjection_message := none, tasks_to_complete := [] }

/-! ## Claim theorems -/

/-- C5: the penalty operation selects the amount from the fixed tier table
with penalty(1) < penalty(2) < penalty(3) being 50, 100, 200, sets the
balance to max(0, balance_before - amount), and appends exactly one
PENALTY transaction whose balance_after equals the account balance right
after the update (both effects are produced by the single state
transition, so they commit together). -/
theorem penalty_tiers_and_ledger (reqStrike : Int) (reason : String)
    (now : Int) (db : DB) :
    penaltyAmount 1 < penaltyAmount 2 ∧ penaltyAmount 2 < penaltyAmount 3
    ∧ penaltyAmount 1 = 50 ∧ penaltyAmount 2 = 100 ∧ penaltyAmount 3 = 200
    ∧ (deduct_sbi_penalty reqStrike reason now db).1.balance
        = max 0 (db.balance - penaltyAmount (clampStrike reqStrike))
    ∧ 0 ≤ (deduct_sbi_penalty reqStrike reason now db).1.balance
    ∧ (deduct_sbi_penalty reqStrike reason now db).1.sbi_transactions
        = db.sbi_transactions ++
          [{ timestamp := now, txn_type := "PENALTY",
             amount := penaltyAmount (clampStrike reqStrike),
             balance_after := (deduct_sbi_penalty reqStrike reason now db).1.balance,
             description := reason, strike_count := clampStrike reqStrike }] :=
  ⟨by decide, by decide, by decide, by decide, by decide, rfl,
   le_max_left 0 _, rfl⟩

/-- C6: the reward-item selector is a pure function of the pair
(tasks_completed, total_tasks); a zero total yields the base tier,
otherwise the completion ratio selects top at 1.0, mid at 0.5, base
below; and the four quoted instances evaluate as claimed. -/
theorem reward_item_tiers :
    (∀ c t : Nat, t = 0 → get_reward_item c t = reward_single_task)
    ∧ (∀ c t : Nat, t ≠ 0 → 1 ≤ (c : ℚ) / (t : ℚ) →
        get_reward_item c t = reward_all_tasks)
    ∧ (∀ c t : Nat, t ≠ 0 → (c : ℚ) / (t : ℚ) < 1 →
        (1 : ℚ) / 2 ≤ (c : ℚ) / (t : ℚ) →
        get_reward_item c t = reward_half_tasks)
    ∧ (∀ c t : Nat, t ≠ 0 → (c : ℚ) / (t : ℚ) < 1 / 2 →
        get_reward_item c t = reward_single_task)
    ∧ get_reward_item 1 4 = reward_single_task
    ∧ get_reward_item 2 4 = reward_half_tasks
    ∧ get_reward_item 4 4 = reward_all_tasks
    ∧ get_reward_item 0 0 = reward_single_task := by
  refine ⟨?_, ?_, ?_, ?_, by norm_num [get_reward_item],
    by norm_num [get_reward_item], by norm_num [get_reward_item],
    by norm_num [get_reward_item]⟩
  · intro c t ht
    simp [get_reward_item, ht]
  · intro c t ht hr
    simp [get_reward_item, ht, hr]
  · intro c t ht h1 h2
    rw [one_div] at h2
    simp [get_reward_item, ht, not_le.mpr h1, h2]
  · intro c t ht h2
    have h1 : (c : ℚ) / (t : ℚ) < 1 := lt_of_lt_of_le h2 (by norm_num)
    rw [one_div] at h2
    simp [get_reward_item, ht, not_le.mpr h1, not_le.mpr h2]

/-- Witness for C6 at the inputs (3,4), (5,4) and (0,3). -/
theorem reward_item_tiers_witness :
    get_reward_item 3 4 = reward_half_tasks
    ∧ get_reward_item 5 4 = reward_all_tasks
    ∧ get_reward_item 0 3 = reward_single_task :=
  ⟨reward_item_tiers.2.2.1 3 4 (by decide) (by norm_num) (by norm_num),
   reward_item_tiers.2.1 5 4 (by decide) (by norm_num),
   reward_item_tiers.2.2.2.1 0 3 (by decide) (by norm_num)⟩

/-- C8: a blank (empty or whitespace-only) transcript is refused with the
fixed message before the oracle is consulted — the result does not depend
on the oracle's answer at all — and the store is returned unchanged. -/
theorem blank_transcript_refused (req : AssessRequest)
    (o1 o2 : CompletionOracleResponse) (now now2 : Int) (db : DB)
    (h : isBlank req.transcript = true) :
    assess_task_completion req o1 now db
      = (db, { tasks_to_complete := [], is_compliant := false,
               compliance_message := "No response detected" })
    ∧ assess_task_completion req o1 now db
        = assess_task_completion req o2 now2 db := by
  constructor <;> simp [assess_task_completion, h]

/-- Witness for C8 on a whitespace-only transcript with two different
oracle answers. -/
theorem blank_transcript_refused_witness :
    assess_task_completion ⟨"  ", []⟩ ⟨[1], true, "r"⟩ 0 (initDB 0)
      = (initDB 0, { tasks_to_complete := [], is_compliant := false,
                     compliance_message := "No response detected" })
    ∧ assess_task_completion ⟨"  ", []⟩ ⟨[1], true, "r"⟩ 0 (initDB 0)
        = assess_task_completion ⟨"  ", []⟩ ⟨[], false, ""⟩ 5 (initDB 0) :=
  blank_transcript_refused ⟨"  ", []⟩ ⟨[1], true, "r"⟩ ⟨[], false, ""⟩ 0 5
    (initDB 0) (by decide)

/-- C9: acknowledging marks every unacknowledged row acknowledged, reports
the current strike count, leaves the strike state untouched, is
idempotent, and is a no-op on a store with no unacknowledged rows. -/
theorem acknowledge_spec (db : DB) :
    (acknowledge_interjection db).1.pending_interjections
      = db.pending_interjections.map (fun p => { p with acknowledged := true })
    ∧ (∀ p ∈ (acknowledge_interjection db).1.pending_interjections,
        p.acknowledged = true)
    ∧ (acknowledge_interjection db).2 = db.strikes.strike_count
    ∧ (acknowledge_interjection db).1.strikes = db.strikes
    ∧ (acknowledge_interjection (acknowledge_interjection db).1).1
        = (acknowledge_interjection db).1
    ∧ (unackCount db = 0 →
        acknowledge_interjection db = (db, db.strikes.strike_count)) := by
  refine ⟨rfl, ?_, rfl, rfl, ?_, ?_⟩
  · intro p hp
    simp only [acknowledge_interjection, List.mem_map] at hp
    rcases hp with ⟨q, _, rfl⟩
    rfl
  · have h2 : (db.pending_interjections.map
          (fun p => ({ p with acknowledged := true } : PendingInterjection))).map
          (fun p => ({ p with acknowledged := true } : PendingInterjection))
        = db.pending_interjections.map
          (fun p => ({ p with acknowledged := true } : PendingInterjection)) := by
      rw [List.map_map]
      rfl
    exact congrArg (fun L => { db with pending_interjections := L }) h2
  · intro h
    have hall : ∀ p ∈ db.pending_interjections, p.acknowledged = true := by
      intro p hp
      have hnil : db.pending_interjections.filter (fun p => !p.acknowledged) = [] :=
        List.length_eq_zero.mp h
      have := List.filter_eq_nil_iff.mp hnil p hp
      simpa using this
    exact congrArg
      (fun L => (({ db with pending_interjections := L } : DB),
        db.strikes.strike_count))
      (map_ack_of_all_acked _ hall)

/-- Witness for C9 on the fresh store, which has no unacknowledged rows. -/
theorem acknowledge_spec_witness :
    acknowledge_interjection (initDB 0) = (initDB 0, (initDB 0).strikes.strike_count) :=
  (acknowledge_spec (initDB 0)).2.2.2.2.2 (by decide)

/-- C2 as stated is false: a manager run skipped at the entry gate returns
before the decision insert, so it writes no ManagerDecision row at all. -/
theorem manager_decision_per_run_counterexample :
    ¬ (∀ (v : Verdict) (now : Int) (db : DB),
        ((manager_check v now db).1.manager_decisions).length
          = db.manager_decisions.length + 1) :=
  fun h => absurd (h vTrivial 0 dbPending) (by decide)

/-- Every pass through the manager body appends exactly one decision. -/
lemma manager_body_decisions_length (v : Verdict) (now : Int) (db : DB) :
    (manager_body v now db).1.manager_decisions.length
      = db.manager_decisions.length + 1 := by
  simp only [manager_body]
  split
  · simp
  · split
    · simp [deduct_sbi_penalty]
    · simp

/-- C4: a compaction run that finds observations resets the strike count
to 0 and refreshes window_start whenever the entering count is at most 3;
a larger entering count is kept with only window_start advancing; the
entering count 2 in particular is forgiven. -/
theorem compaction_forgiveness (summary : String) (now : Int) (db db' : DB)
    (h : compact summary now db = some db') :
    (db.strikes.strike_count ≤ 3 →
      db'.strikes.strike_count = 0 ∧ db'.strikes.window_start = now)
    ∧ (3 < db.strikes.strike_count →
      db'.strikes.strike_count = db.strikes.strike_count
        ∧ db'.strikes.window_start = now)
    ∧ (db.strikes.strike_count = 2 →
      db'.strikes.strike_count = 0 ∧ db'.strikes.window_start = now) := by
  simp only [compact] at h
  split at h
  · exact absurd h (by simp)
  · split at h
    case isTrue hle =>
      obtain rfl := Option.some.inj h
      refine ⟨fun _ => ⟨rfl, rfl⟩, fun hgt => absurd hle (by omega), fun _ => ⟨rfl, rfl⟩⟩
    case isFalse hgt =>
      obtain rfl := Option.some.inj h
      refine ⟨fun hle => absurd hle (by omega), fun _ => ⟨rfl, rfl⟩,
        fun h2 => absurd h2 (by omega)⟩

/-- Store entering a compaction window with two strikes and one
observation inside the trailing 30 minutes. -/
def dbObs : DB :=
  { initDB 0 with
    observations := [{ timestamp := 100, window_title := "w", app_name := "a",
                       description := "d" }]
    strikes := { strike_count := 2, window_start := 0, updated_at := 0 } }

/-- The state after compacting dbObs at time 200. -/
def dbObsAfter : DB := (compact "s" 200 dbObs).getD (initDB 0)

/-- Witness for C4: compacting with strike_count = 2 yields strike_count 0
and window_start refreshed to the compaction time. -/
theorem compaction_forgiveness_witness :
    dbObsAfter.strikes.strike_count = 0 ∧ dbObsAfter.strikes.window_start = 200 :=
  (compaction_forgiveness "s" 200 dbObs dbObsAfter rfl).2.2 rfl

/-- C2 amended: a non-skipped Manager invocation writes exactly one
ManagerDecision row; an invocation skipped because an interjection is
pending at entry writes none. -/
theorem manager_decision_per_run (v : Verdict) (now : Int) (db : DB) :
    ((manager_check v now db).1.manager_decisions).length
      = db.manager_decisions.length
          + (if hasPendingInterjection db then 0 else 1) := by
  unfold manager_check
  by_cases h : hasPendingInterjection db
  · simp [h]
  · simp [h, manager_body_decisions_length]

/-- Row view of one LIKE update. -/
lemma markTasksLike_row (t : String) (tasks : List Task) (i : Nat) :
    (markTasksLike t tasks)[i]? = (tasks[i]?).map (fun task =>
      if !task.done && likeMatch (likePattern t) task.text.data then
        { task with done := true }
      else task) := by
  simp [markTasksLike]

/-- Under the open gate the manager's task table is exactly the LIKE-update
fold over the oracle suggestions. -/
lemma manager_check_tasks (v : Verdict) (now : Int) (db : DB)
    (h : hasPendingInterjection db = false) :
    (manager_check v now db).1.tasks
      = markTasksLikeAll v.tasks_to_complete db.tasks := by
  have hskip : manager_check v now db = manager_body v now db := by
    simp [manager_check, h]
  rw [hskip]
  simp only [manager_body]
  split
  · rfl
  · split
    · simp [deduct_sbi_penalty]
    · rfl

/-- C10: the manager task-completion side effect applies each suggestion
as a percent-wrapped LIKE pattern restricted to rows with done = 0, so a
pending task whose text contains the suggestion is marked done, an empty
suggestion marks every pending task done, and one suggestion can mark
several tasks at once. -/
theorem manager_like_matching :
    (∀ (t : String) (tasks : List Task) (i : Nat) (task : Task),
      tasks[i]? = some task → task.done = false →
      (∃ pre post, task.text.data = pre ++ (t.data ++ post)) →
      (markTasksLike t tasks)[i]? = some { task with done := true })
    ∧ (∀ tasks : List Task,
        markTasksLike "" tasks
          = tasks.map (fun task => { task with done := true }))
    ∧ (∀ (v : Verdict) (now : Int) (db : DB),
        hasPendingInterjection db = false →
        (manager_check v now db).1.tasks
          = markTasksLikeAll v.tasks_to_complete db.tasks)
    ∧ markTasksLike "report"
        [{ id := 1, text := "write report", done := false },
         { id := 2, text := "review report draft", done := false }]
      = [{ id := 1, text := "write report", done := true },
         { id := 2, text := "review report draft", done := true }] := by
  refine ⟨?_, ?_, manager_check_tasks, by decide⟩
  · intro t tasks i task hi hdone hsub
    rcases hsub with ⟨pre, post, hsplit⟩
    rw [markTasksLike_row, hi]
    have hm : likeMatch (likePattern t) task.text.data = true := by
      rw [hsplit]
      exact likeMatch_of_substring t.data pre post
    simp [hdone, hm]
  · intro tasks
    induction tasks with
    | nil => rfl
    | cons task tasks ih =>
      simp only [markTasksLike, List.map_cons] at ih ⊢
      have hhead :
          (if !task.done && likeMatch (likePattern "") task.text.data then
            ({ task with done := true } : Task)
          else task) = { task with done := true } := by
        rcases task with ⟨id, text, done⟩
        cases done
        · have h2 : likeMatch (likePattern "") text.data = true :=
            likeMatch_pct_pct text.data
          simp [h2]
        · simp
      rw [hhead, ih]

/-- Witness for C10: the suggestion "report" marks the pending task
"write report" (of which it is a proper substring) done. -/
theorem manager_like_matching_witness :
    (markTasksLike "report" [{ id := 1, text := "write report", done := false }])[0]?
      = some { id := 1, text := "write report", done := true } :=
  manager_like_matching.1 "report"
    [{ id := 1, text := "write report", done := false }] 0
    { id := 1, text := "write report", done := false } rfl rfl
    ⟨"write ".data, [], by decide⟩

/-! ## Per-operation preservation lemmas for the two core invariants -/

/-- An open entry gate means zero unacknowledged rows. -/
lemma unackCount_eq_zero_of_not_pending (db : DB)
    (h : hasPendingInterjection db = false) : unackCount db = 0 := by
  simp only [unackCount]
  rw [List.length_eq_zero]
  exact List.filter_eq_nil_iff.mpr (List.any_eq_false.mp h)

/-- After acknowledging there is no unacknowledged row left. -/
lemma unackCount_acknowledge (db : DB) :
    unackCount (acknowledge_interjection db).1 = 0 := by
  simp only [unackCount, acknowledge_interjection]
  induction db.pending_interjections with
  | nil => rfl
  | cons p P ih => simp [ih]

/-- The manager body leaves the gate table unchanged or appends exactly
one unacknowledged row. -/
lemma manager_body_pending (v : Verdict) (now : Int) (db : DB) :
    (manager_body v now db).1.pending_interjections = db.pending_interjections
    ∨ (manager_body v now db).1.pending_interjections
        = db.pending_interjections
            ++ [{ timestamp := now, message := v.interjection_message.getD "",
                  acknowledged := false }] := by
  simp only [manager_body]
  split
  · exact Or.inl rfl
  · split
    · right
      simp [deduct_sbi_penalty]
    · exact Or.inl rfl

/-- Compaction never touches the gate table. -/
lemma compact_pending (summary : String) (now : Int) (db : DB) :
    ((compact summary now db).getD db).pending_interjections
      = db.pending_interjections := by
  simp only [compact]
  split
  · rfl
  · split
    · rfl
    · rfl

/-- The assessment path never touches the gate table. -/
lemma assess_pending (req : AssessRequest) (oracle : CompletionOracleResponse)
    (now : Int) (db : DB) :
    (assess_task_completion req oracle now db).1.pending_interjections
      = db.pending_interjections := by
  simp only [assess_task_completion]
  split
  · rfl
  · split
    · rfl
    · simp [place_blinkit_reward]

/-- The assessment path never touches the strike state. -/
lemma assess_strikes (req : AssessRequest) (oracle : CompletionOracleResponse)
    (now : Int) (db : DB) :
    (assess_task_completion req oracle now db).1.strikes = db.strikes := by
  simp only [assess_task_completion]
  split
  · rfl
  · split
    · rfl
    · simp [place_blinkit_reward]

/-- One sequential step keeps the count of unacknowledged rows at most 1. -/
lemma unack_step (db : DB) (op : Op) (h : unackCount db ≤ 1) :
    unackCount (applyOp db op) ≤ 1 := by
  cases op with
  | manager v now =>
    show unackCount (manager_check v now db).1 ≤ 1
    by_cases hp : hasPendingInterjection db
    · have hid : manager_check v now db = (db, managerSkipResponse) := by
        simp [manager_check, hp]
      rw [hid]
      exact h
    · have h0 : unackCount db = 0 :=
        unackCount_eq_zero_of_not_pending db (by simpa using hp)
      have hskip : manager_check v now db = manager_body v now db := by
        simp [manager_check, hp]
      rw [hskip]
      rcases manager_body_pending v now db with heq | heq
      · have : unackCount (manager_body v now db).1 = unackCount db := by
          simp [unackCount, heq]
        omega
      · have : unackCount (manager_body v now db).1 = unackCount db + 1 := by
          simp [unackCount, heq, List.filter_append]
        omega
  | compaction summary now =>
    show unackCount ((compact summary now db).getD db) ≤ 1
    have : unackCount ((compact summary now db).getD db) = unackCount db := by
      simp [unackCount, compact_pending]
    omega
  | acknowledge =>
    show unackCount (acknowledge_interjection db).1 ≤ 1
    rw [unackCount_acknowledge]
    omega
  | resetAll now => exact Nat.zero_le 1
  | observe o => exact h
  | assess req oracle now =>
    show unackCount (assess_task_completion req oracle now db).1 ≤ 1
    have : unackCount (assess_task_completion req oracle now db).1
        = unackCount db := by
      simp [unackCount, assess_pending]
    omega
  | penalty r reason now => exact h
  | reward c t reason now => exact h

/-- The manager either keeps the strike count or bumps it to
min 3 (previous + 1). -/
lemma manager_check_strike (v : Verdict) (now : Int) (db : DB) :
    (manager_check v now db).1.strikes.strike_count = db.strikes.strike_count
    ∨ (manager_check v now db).1.strikes.strike_count
        = min 3 (db.strikes.strike_count + 1) := by
  by_cases hp : hasPendingInterjection db
  · left
    simp [manager_check, hp]
  · have hskip : manager_check v now db = manager_body v now db := by
      simp [manager_check, hp]
    rw [hskip]
    simp only [manager_body]
    split
    · exact Or.inl rfl
    · split
      · right
        simp [deduct_sbi_penalty]
      · exact Or.inl rfl

/-- Compaction resets the strike count or keeps it. -/
lemma compact_strike (summary : String) (now : Int) (db : DB) :
    ((compact summary now db).getD db).strikes.strike_count = 0
    ∨ ((compact summary now db).getD db).strikes.strike_count
        = db.strikes.strike_count := by
  simp only [compact]
  split
  · exact Or.inr rfl
  · split
    · exact Or.inl rfl
    · exact Or.inr rfl

/-- One sequential step keeps the strike count within the cap. -/
lemma strike_step (db : DB) (op : Op) (h : db.strikes.strike_count ≤ 3) :
    (applyOp db op).strikes.strike_count ≤ 3 := by
  cases op with
  | manager v now =>
    show (manager_check v now db).1.strikes.strike_count ≤ 3
    rcases manager_check_strike v now db with heq | heq
    · rw [heq]; exact h
    · rw [heq]; exact min_le_left 3 _
  | compaction summary now =>
    show ((compact summary now db).getD db).strikes.strike_count ≤ 3
    rcases compact_strike summary now db with heq | heq
    · rw [heq]; exact Nat.zero_le 3
    · rw [heq]; exact h
  | acknowledge => exact h
  | resetAll now => exact Nat.zero_le 3
  | observe o => exact h
  | assess req oracle now =>
    show (assess_task_completion req oracle now db).1.strikes.strike_count ≤ 3
    rw [assess_strikes]
    exact h
  | penalty r reason now => exact h
  | reward c t reason now => exact h

/-- C1: starting from the fresh store, every sequence of sequentially
executed operations keeps the count of unacknowledged interjection rows
at most 1; and a manager run that sees a pending interjection at entry
leaves the store completely unchanged. -/
theorem pending_gate_invariant :
    (∀ (ops : List Op) (t0 : Int), unackCount (runOps ops (initDB t0)) ≤ 1)
    ∧ (∀ (v : Verdict) (now : Int) (db : DB),
        hasPendingInterjection db = true → (manager_check v now db).1 = db) := by
  constructor
  · intro ops t0
    have hrun : ∀ db : DB, unackCount db ≤ 1 → unackCount (runOps ops db) ≤ 1 := by
      induction ops with
      | nil => exact fun db h => h
      | cons op ops ih => exact fun db h => ih _ (unack_step db op h)
    exact hrun _ (Nat.zero_le 1)
  · intro v now db h
    simp [manager_check, h]

/-- Witness for C1: a short concrete run, and a skipped manager call on a
store with one pending interjection. -/
theorem pending_gate_invariant_witness :
    unackCount (runOps [Op.manager vTrivial 0, Op.acknowledge] (initDB 0)) ≤ 1
    ∧ (manager_check vTrivial 0 dbPending).1 = dbPending :=
  ⟨pending_gate_invariant.1 [Op.manager vTrivial 0, Op.acknowledge] 0,
   pending_gate_invariant.2 vTrivial 0 dbPending rfl⟩

/-- Store with a single strike recorded. -/
def dbStrike1 : DB :=
  { initDB 0 with
    strikes := { strike_count := 1, window_start := 0, updated_at := 0 } }

/-- C3: starting from the fresh store, the strike count stays within
0..3 across every sequence of operations; the manager either keeps
it or sets it to min 3 (previous + 1); under the cap the manager never
decreases it; and the manager never brings it back to 0 from a positive
value. -/
theorem strike_policy :
    (∀ (ops : List Op) (t0 : Int),
        (runOps ops (initDB t0)).strikes.strike_count ≤ 3)
    ∧ (∀ (v : Verdict) (now : Int) (db : DB),
        (manager_check v now db).1.strikes.strike_count = db.strikes.strike_count
        ∨ (manager_check v now db).1.strikes.strike_count
            = min 3 (db.strikes.strike_count + 1))
    ∧ (∀ (v : Verdict) (now : Int) (db : DB), db.strikes.strike_count ≤ 3 →
        db.strikes.strike_count
          ≤ (manager_check v now db).1.strikes.strike_count)
    ∧ (∀ (v : Verdict) (now : Int) (db : DB), 1 ≤ db.strikes.strike_count →
        1 ≤ (manager_check v now db).1.strikes.strike_count) := by
  refine ⟨?_, manager_check_strike, ?_, ?_⟩
  · intro ops t0
    have hrun : ∀ db : DB, db.strikes.strike_count ≤ 3 →
        (runOps ops db).strikes.strike_count ≤ 3 := by
      induction ops with
      | nil => exact fun db h => h
      | cons op ops ih => exact fun db h => ih _ (strike_step db op h)
    exact hrun _ (Nat.zero_le 3)
  · intro v now db h
    rcases manager_check_strike v now db with heq | heq
    · rw [heq]
    · rw [heq]; omega
  · intro v now db h
    rcases manager_check_strike v now db with heq | heq
    · rw [heq]; exact h
    · rw [heq]; omega

/-! ## Completion-assessment lemmas (C7) -/

/-- Every text produced by the index mapping comes from an in-range,
not-yet-done task whose 1-based number the oracle returned. -/
lemma tasks_to_complete_sound (task_list : List Task) (numbers : List Int) :
    ∀ s ∈ tasks_to_complete_of task_list numbers,
      ∃ (i : Nat) (task : Task), task_list[i]? = some task
        ∧ task.done = false ∧ s = task.text
        ∧ ((i : Int) + 1) ∈ numbers := by
  intro s hs
  simp only [tasks_to_complete_of, List.mem_filterMap] at hs
  rcases hs with ⟨num, hnum, hmap⟩
  dsimp only at hmap
  by_cases hpos : 0 ≤ num - 1
  · rw [if_pos hpos] at hmap
    cases hidx : task_list[(num - 1).toNat]? with
    | none =>
      rw [hidx] at hmap
      exact absurd hmap (by simp)
    | some task =>
      rw [hidx] at hmap
      dsimp only at hmap
      by_cases hdone : task.done = true
      · rw [if_pos hdone] at hmap
        exact absurd hmap (by simp)
      · rw [if_neg hdone] at hmap
        refine ⟨(num - 1).toNat, task, hidx, by simpa using hdone,
          (Option.some.inj hmap).symm, ?_⟩
        have hcast : ((num - 1).toNat : Int) = num - 1 := Int.toNat_of_nonneg hpos
        rw [hcast]
        simpa using hnum
  · rw [if_neg hpos] at hmap
    exact absurd hmap (by simp)

/-- Row view of one exact-match update: a row changes exactly when its
text equals the literal and it was not yet done. -/
lemma markTasksExact_row (t : String) (tasks : List Task) (i : Nat) :
    (markTasksExact t tasks)[i]? = (tasks[i]?).map (fun task =>
      if task.text = t ∧ task.done = false then { task with done := true }
      else task) := by
  simp only [markTasksExact, List.getElem?_map]
  cases tasks[i]? with
  | none => rfl
  | some task =>
    by_cases h1 : task.text = t
    · by_cases h2 : task.done = true
      · simp [h1, h2]
      · simp [h1, h2]
    · simp [h1]

/-- Row view of the whole exact-match update loop: a row is marked done
exactly when it was pending and its text occurs among the mapped texts. -/
lemma markTasksExactAll_row (ts : List String) (tasks : List Task) (i : Nat) :
    (markTasksExactAll ts tasks)[i]? = (tasks[i]?).map (fun task =>
      if task.done = false ∧ task.text ∈ ts then { task with done := true }
      else task) := by
  induction ts generalizing tasks with
  | nil =>
    show tasks[i]? = (tasks[i]?).map (fun task =>
      if task.done = false ∧ task.text ∈ ([] : List String) then
        { task with done := true }
      else task)
    cases tasks[i]? with
    | none => rfl
    | some task => simp
  | cons t ts ih =>
    have hstep : markTasksExactAll (t :: ts) tasks
        = markTasksExactAll ts (markTasksExact t tasks) := rfl
    rw [hstep, ih, markTasksExact_row]
    cases tasks[i]? with
    | none => rfl
    | some task =>
      by_cases h1 : task.done = true
      · simp [h1]
      · by_cases h2 : task.text = t
        · simp [h1, h2]
        · by_cases h3 : task.text ∈ ts
          · simp [h1, h2, h3]
          · simp [h1, h2, h3]

/-- The assessment's task table is exactly the exact-match update loop
over the mapped texts. -/
lemma assess_tasks_eq (req : AssessRequest) (oracle : CompletionOracleResponse)
    (now : Int) (db : DB) (hblank : isBlank req.transcript = false) :
    (assess_task_completion req oracle now db).1.tasks
      = markTasksExactAll
          (tasks_to_complete_of req.task_list oracle.completed_task_numbers)
          db.tasks := by
  simp only [assess_task_completion]
  rw [if_neg (by simp [hblank])]
  split
  · rfl
  · simp [place_blinkit_reward]

/-- When at least one task is newly completed, exactly one reward order is
appended, at the cumulative completed count over the total task count. -/
lemma assess_reward (req : AssessRequest) (oracle : CompletionOracleResponse)
    (now : Int) (db : DB) (hblank : isBlank req.transcript = false)
    (hne : tasks_to_complete_of req.task_list oracle.completed_task_numbers ≠ []) :
    (assess_task_completion req oracle now db).1.blinkit_orders
      = db.blinkit_orders ++
        [{ timestamp := now,
           item := get_reward_item
             ((req.task_list.filter (fun t => t.done)).length
               + (tasks_to_complete_of req.task_list
                   oracle.completed_task_numbers).length)
             req.task_list.length,
           status := "PLACED",
           reason := "Completed "
             ++ toString (tasks_to_complete_of req.task_list
                 oracle.completed_task_numbers).length ++ " task(s)",
           tasks_completed :=
             (req.task_list.filter (fun t => t.done)).length
               + (tasks_to_complete_of req.task_list
                   oracle.completed_task_numbers).length,
           total_tasks := req.task_list.length }] := by
  simp only [assess_task_completion]
  rw [if_neg (by simp [hblank]), if_neg (by simp [hne])]
  simp [place_blinkit_reward]

/-- C7: in the completion assessment only in-range oracle indices that
refer to not-yet-done tasks are mapped to literal task text; the task
table is updated by exact-text match restricted to pending rows; and any
nonempty completion issues exactly one reward order whose ratio uses the
cumulative count (already done plus newly matched) over the total. -/
theorem assessment_contract (req : AssessRequest)
    (oracle : CompletionOracleResponse) (now : Int) (db : DB)
    (hblank : isBlank req.transcript = false) :
    (∀ s ∈ tasks_to_complete_of req.task_list oracle.completed_task_numbers,
      ∃ (i : Nat) (task : Task), req.task_list[i]? = some task
        ∧ task.done = false ∧ s = task.text
        ∧ ((i : Int) + 1) ∈ oracle.completed_task_numbers)
    ∧ ((assess_task_completion req oracle now db).1.tasks
        = markTasksExactAll
            (tasks_to_complete_of req.task_list oracle.completed_task_numbers)
            db.tasks)
    ∧ (∀ (ts : List String) (tasks : List Task) (i : Nat),
        (markTasksExactAll ts tasks)[i]? = (tasks[i]?).map (fun task =>
          if task.done = false ∧ task.text ∈ ts then { task with done := true }
          else task))
    ∧ (tasks_to_complete_of req.task_list oracle.completed_task_numbers ≠ [] →
        (assess_task_completion req oracle now db).1.blinkit_orders
          = db.blinkit_orders ++
            [{ timestamp := now,
               item := get_reward_item
                 ((req.task_list.filter (fun t => t.done)).length
                   + (tasks_to_complete_of req.task_list
                       oracle.completed_task_numbers).length)
                 req.task_list.length,
               status := "PLACED",
               reason := "Completed "
                 ++ toString (tasks_to_complete_of req.task_list
                     oracle.completed_task_numbers).length ++ " task(s)",
               tasks_completed :=
                 (req.task_list.filter (fun t => t.done)).length
                   + (tasks_to_complete_of req.task_list
                       oracle.completed_task_numbers).length,
               total_tasks := req.task_list.length }]) :=
  ⟨tasks_to_complete_sound req.task_list oracle.completed_task_numbers,
   assess_tasks_eq req oracle now db hblank,
   markTasksExactAll_row,
   assess_reward req oracle now db hblank⟩

/-- Request of the end-to-end completion scenario: two pending tasks and a
spoken report that the first is finished. -/
def reqW : AssessRequest :=
  { transcript := "I finished the report"
    task_list := [{ id := 1, text := "write report", done := false },
                  { id := 2, text := "email client", done := false }] }

/-- Oracle answer for reqW: task number 1 completed, cooperative. -/
def oracleW : CompletionOracleResponse :=
  { completed_task_numbers := [1], is_compliant := true,
    compliance_reason := "reported progress" }

/-- Store holding the two tasks of reqW. -/
def dbW : DB := { initDB 0 with tasks := reqW.task_list }

/-- Witness for C7 on the concrete scenario. -/
theorem assessment_contract_witness :
    ((assess_task_completion reqW oracleW 7 dbW).1.tasks
      = markTasksExactAll
          (tasks_to_complete_of reqW.task_list oracleW.completed_task_numbers)
          dbW.tasks)
    ∧ ((assess_task_completion reqW oracleW 7 dbW).1.blinkit_orders
        = dbW.blinkit_orders ++
          [{ timestamp := 7,
             item := get_reward_item
               ((reqW.task_list.filter (fun t => t.done)).length
                 + (tasks_to_complete_of reqW.task_list
                     oracleW.completed_task_numbers).length)
               reqW.task_list.length,
             status := "PLACED",
             reason := "Completed "
               ++ toString (tasks_to_complete_of reqW.task_list
                   oracleW.completed_task_numbers).length ++ " task(s)",
             tasks_completed :=
               (reqW.task_list.filter (fun t => t.done)).length
                 + (tasks_to_complete_of reqW.task_list
                     oracleW.completed_task_numbers).length,
             total_tasks := reqW.task_list.length }]) :=
  ⟨(assessment_contract reqW oracleW 7 dbW (by decide)).2.1,
   (assessment_contract reqW oracleW 7 dbW (by decide)).2.2.2 (by decide)⟩

/-- Witness for C3 at the fresh store and at a store with one strike. -/
theorem strike_policy_witness :
    (initDB 0).strikes.strike_count
      ≤ (manager_check vTrivial 0 (initDB 0)).1.strikes.strike_count
    ∧ 1 ≤ (manager_check vTrivial 5 dbStrike1).1.strikes.strike_count :=
  ⟨strike_policy.2.2.1 vTrivial 0 (initDB 0) (by decide),
   strike_policy.2.2.2 vTrivial 5 dbStrike1 (by decide)⟩

end Productivity
